import Mathlib

/-!
Shallow embedding of the repository `hemalmondalkee/semantic-kernel`
(src: the tutorial notebook
`python/samples/getting_started/05-memory-and-embeddings.ipynb` plus an
`.editorconfig`).  The notebook is straight-line glue code: it loads
configuration, constructs SDK service objects, defines two vector-store
record dataclasses, and issues a fixed sequence of awaited SDK calls with
interleaved printing.  We embed

* the service-selection expression of the configuration cell,
* the two record dataclasses `SimpleModel` and `GitHubFile` together with
  their `__post_init__` methods and their `VectorStoreField` annotations,
* the service-configuration cell's branching (which services are added to
  the kernel and whether the name `embedding_gen` gets bound),
* the notebook's executed flow as a flat trace of steps, with a small
  operational semantics for error propagation and for the number of
  external calls in flight, and
* the collection-operation footprint of the helper
  `search_memory_examples` over an abstract collection state.
-/

/-- Modelled from the spec: the `Service` enum comes from `services.py`,
a sibling file of the notebook that is part of this repository but not
present under src/.  The notebook's markdown documents its members:
"GLOBAL_LLM_SERVICE set to either OpenAI, AzureOpenAI, or HuggingFace";
the enum is looked up by its lowercased string value. -/
inductive Service where
  | OpenAI
  | AzureOpenAI
  | HuggingFace
deriving DecidableEq, Repr

/-- Modelled from the spec: `Service(value)` looks an enum member up by its
string value ("openai" / "azureopenai" / "huggingface"); an unknown value
raises `ValueError`, rendered here as `none`. -/
def Service.fromValue : String → Option Service
  | "openai" => some .OpenAI
  | "azureopenai" => some .AzureOpenAI
  | "huggingface" => some .HuggingFace
  | _ => none

/-- Python's `str.lower()` (character-wise lowercasing; the provider names
at play are ASCII).  Written over the character list so that it evaluates
inside the kernel. -/
def pyLower (s : String) : String :=
  String.mk (s.data.map Char.toLower)

/-- The configuration cell (notebook cell `1b95af24`):
`selectedService = Service.AzureOpenAI if service_settings.global_llm_service is None
 else Service(service_settings.global_llm_service.lower())`.
The argument is the value of `GLOBAL_LLM_SERVICE` as loaded by
`ServiceSettings` (`none` when the variable is unset); the error case is
Python's `ValueError` from an unknown enum value. -/
def selectedService (global_llm_service : Option String) : Except String Service :=
  match global_llm_service with
  | none => .ok .AzureOpenAI
  | some s =>
    match Service.fromValue (pyLower s) with
    | some v => .ok v
    | none => .error "ValueError"

/-- The Python type of the `embedding` field is `list[float] | str | None`;
the non-`None` part of that union. -/
inductive EmbeddingValue where
  | vector (v : List Rat)
  | text (s : String)
deriving DecidableEq, Repr

/-- The dataclass `SimpleModel` of cell `da74fa33`: fields `text`
(data field), `id` (key field, defaulted to a fresh uuid, passed
explicitly here), and `embedding` (vector field, default `None`). -/
structure SimpleModel where
  text : String
  id : String
  embedding : Option EmbeddingValue
deriving DecidableEq, Repr

/-- `SimpleModel.__post_init__`:
`if self.embedding is None: self.embedding = self.text`. -/
def SimpleModel.postInit (m : SimpleModel) : SimpleModel :=
  match m.embedding with
  | none => { m with embedding := some (.text m.text) }
  | some _ => m

/-- Dataclass construction of a `SimpleModel` followed by the automatic
`__post_init__` call.  The `id` default factory (`uuid4`) is external
randomness, so the id is an explicit argument. -/
def mkSimpleModel (text id : String) (embedding : Option EmbeddingValue) : SimpleModel :=
  SimpleModel.postInit { text := text, id := id, embedding := embedding }

/-- The dataclass `GitHubFile` of cell `170e7142`: fields `url` (data),
`text` (data), `key` (key, defaulted to a fresh uuid, passed explicitly
here) and `embedding` (vector, default `None`). -/
structure GitHubFile where
  url : String
  text : String
  key : String
  embedding : Option EmbeddingValue
deriving DecidableEq, Repr

/-- `GitHubFile.__post_init__`:
`if self.embedding is None: self.embedding = f"{self.url} {self.text}"`. -/
def GitHubFile.postInit (m : GitHubFile) : GitHubFile :=
  match m.embedding with
  | none => { m with embedding := some (.text (m.url ++ " " ++ m.text)) }
  | some _ => m

/-- Dataclass construction of a `GitHubFile` followed by the automatic
`__post_init__` call. -/
def mkGitHubFile (url text key : String) (embedding : Option EmbeddingValue) : GitHubFile :=
  GitHubFile.postInit { url := url, text := text, key := key, embedding := embedding }

/-- The three records built in cell `d096504c`:
`records = [SimpleModel(text=...), SimpleModel(text=...), SimpleModel(text=...)]`,
each with `embedding` left at its default `None` and a uuid id. -/
def notebookSimpleRecords (i1 i2 i3 : String) : List SimpleModel :=
  [ mkSimpleModel "Your budget for 2024 is $100,000" i1 none,
    mkSimpleModel "Your savings from 2023 are $50,000" i2 none,
    mkSimpleModel "Your investments are $80,000" i3 none ]

/-- The three records appended to `github_files` in cell `0d971eeb`, each
with `embedding` left at its default `None` and a uuid key. -/
def notebookGitHubFiles (k1 k2 k3 : String) : List GitHubFile :=
  [ mkGitHubFile "https://github.com/microsoft/semantic-kernel/blob/main/README.md"
      "README: Installation, getting started, and how to contribute" k1 none,
    mkGitHubFile "https://github.com/microsoft/semantic-kernel/blob/main/dotnet/notebooks/02-running-prompts-from-file.ipynb"
      "Jupyter notebook describing how to pass prompts from a file to a semantic plugin or function" k2 none,
    mkGitHubFile "https://github.com/microsoft/semantic-kernel/blob/main/dotnet/notebooks/00-getting-started.ipynb"
      "Jupyter notebook describing how to get started with Semantic Kernel" k3 none ]

/-- Python exceptions relevant to the notebook: `NameError` for an unbound
name and `ValueError` from an enum lookup. -/
inductive PyError where
  | nameError (name : String)
  | valueError (msg : String)
deriving DecidableEq, Repr

/-- The kernel object: the service ids registered with `add_service`. -/
structure KernelState where
  services : List String
deriving DecidableEq, Repr

/-- The service-configuration cell (cell `8f8dcbc6`).  Given the selected
service, it returns the kernel state after the cell (services registered
under ids "chat" and "embedding") together with the value bound to the
name `embedding_gen` — the constructed embedding service, identified here
by its class name.  The cell has only an `if` branch for `AzureOpenAI` and
an `elif` branch for `OpenAI`; any other selection (`HuggingFace`) runs
neither branch, so nothing is added and `embedding_gen` stays unbound. -/
def configureServicesCell : Service → KernelState × Option String
  | .AzureOpenAI => (⟨["chat", "embedding"]⟩, some "AzureTextEmbedding")
  | .OpenAI => (⟨["chat", "embedding"]⟩, some "OpenAITextEmbedding")
  | .HuggingFace => (⟨[]⟩, none)

/-- The configuration phase chained: load `GLOBAL_LLM_SERVICE`, compute
`selectedService` (cell `1b95af24`), then run the service-configuration
cell (cell `8f8dcbc6`). -/
def runConfigPhase (env : Option String) : Except PyError (KernelState × Option String) :=
  match selectedService env with
  | .error m => .error (.valueError m)
  | .ok svc => .ok (configureServicesCell svc)

/-- The role tag of a `VectorStoreField` annotation: `"key"`, `"data"` or
`"vector"`. -/
inductive FieldRole where
  | key
  | data
  | vector
deriving DecidableEq, Repr

/-- One `Annotated[..., VectorStoreField(role, ...)]` dataclass field:
its name, its role tag, and the `embedding_generator` argument when one is
given (the value bound to `embedding_gen`). -/
structure VSField where
  name : String
  role : FieldRole
  gen : Option String
deriving DecidableEq, Repr

/-- The `VectorStoreField` annotations of `SimpleModel` (cell `da74fa33`):
`text` is a data field (full-text indexed), `id` the key field, and
`embedding` the vector field with `embedding_generator=embedding_gen`. -/
def simpleModelVSFields (g : String) : List VSField :=
  [⟨"text", .data, none⟩, ⟨"id", .key, none⟩, ⟨"embedding", .vector, some g⟩]

/-- The `VectorStoreField` annotations of `GitHubFile` (cell `170e7142`):
`url` and `text` are data fields (full-text indexed), `key` the key field,
and `embedding` the vector field with `embedding_generator=embedding_gen`. -/
def gitHubFileVSFields (g : String) : List VSField :=
  [⟨"url", .data, none⟩, ⟨"text", .data, none⟩, ⟨"key", .key, none⟩,
   ⟨"embedding", .vector, some g⟩]

/-- The `SimpleModel` class-definition cell (cell `da74fa33`).  Its
`Annotated` metadata mentions the name `embedding_gen`, which Python
evaluates when the class body is executed: if `embedding_gen` was never
bound, the cell raises `NameError`; otherwise it defines the schema with
that generator attached to the vector field. -/
def defineSimpleModelCell : Option String → Except PyError (List VSField)
  | none => .error (.nameError "embedding_gen")
  | some g => .ok (simpleModelVSFields g)

/-- The `GitHubFile` class-definition cell (cell `170e7142`); references
`embedding_gen` exactly as the `SimpleModel` cell does. -/
def defineGitHubFileCell : Option String → Except PyError (List VSField)
  | none => .error (.nameError "embedding_gen")
  | some g => .ok (gitHubFileVSFields g)

/-- Number of fields of a schema carrying a given role tag. -/
def roleCount (fields : List VSField) (r : FieldRole) : Nat :=
  (fields.filter (fun f => f.role == r)).length

/-- The vector-store or collection objects the notebook calls methods on:
`in_memory_store`, `collection` (the `SimpleModel` collection),
`github_memory` (the `GitHubFile` collection) and `azs_memory` (the Azure
AI Search collection). -/
inductive StoreTarget where
  | in_memory_store
  | collection
  | github_memory
  | azs_memory
deriving DecidableEq, Repr

/-- The store/collection methods the notebook invokes. -/
inductive StoreOp where
  | get_collection
  | ensure_collection_exists
  | upsert
  | search
  | create_search_function
  | ensure_collection_deleted
deriving DecidableEq, Repr

/-- SDK service objects the notebook constructs. -/
inductive ServiceObj where
  | kernelObj
  | chatService
  | embeddingService
deriving DecidableEq, Repr

/-- Vector-store objects the notebook constructs. -/
inductive StoreKind where
  | inMemoryStore
  | azureAISearchCollection
deriving DecidableEq, Repr

/-- The two record dataclasses the notebook defines. -/
inductive SchemaName where
  | simpleModel
  | gitHubFile
deriving DecidableEq, Repr

/-- Python functions the notebook defines (pure definitions, no effect). -/
inductive FuncName where
  | searchMemoryExamples
  | setupChatWithMemory
  | chatFunc
deriving DecidableEq, Repr

/-- Local kernel-object operations (no external call). -/
inductive KernelOpKind where
  | addService
  | addFunction
deriving DecidableEq, Repr

/-- One step of the notebook's executed flow.  `setupEnv` covers the two
bootstrap cells (pip install, `sys.path` fix-up); `loadConfig` the
settings/selection cell; `printResults` one maximal run of consecutive
`print` statements; `storeCall` a method call on a store or collection
object; `chatCall` a `kernel.invoke` of the chat function.  The
constructors `handleErr` (an `except` handler), `spawnTask` and
`gatherTasks` (task spawning / gathering) exist in the step language so
that their absence from the notebook's trace is a checkable statement —
the notebook never uses them. -/
inductive Step where
  | setupEnv
  | loadConfig
  | printResults
  | constructService (s : ServiceObj)
  | constructStore (k : StoreKind)
  | defineSchema (n : SchemaName)
  | constructRecords (n : SchemaName)
  | defineFunction (f : FuncName)
  | kernelOp (o : KernelOpKind)
  | storeCall (t : StoreTarget) (o : StoreOp)
  | chatCall
  | handleErr
  | spawnTask
  | gatherTasks
deriving DecidableEq, Repr

/-- The notebook's executed flow, cell by cell, in order.  The recorded run
selected the OpenAI branch of the service-configuration cell (its output
reads "Using service type: Service.OpenAI"); the AzureOpenAI branch yields
the same step shapes.  Consecutive `print` statements with no other effect
between them are modelled as a single `printResults` step.  Cells that only
define a function contribute one `defineFunction` step; the awaited calls
inside `search_memory_examples` and `chat` appear at the position of the
cell that runs them. -/
def notebookTrace : List Step :=
  [ -- cell a77bdf89: pip install of the SDK and version import
    .setupEnv,
    -- cell d8a3db35: sys.path bootstrap
    .setupEnv,
    -- cell 1b95af24: ServiceSettings() and selectedService
    .loadConfig,
    .printResults,
    -- cell 8f8dcbc6: Kernel(), chat service, embedding service, add_service twice
    .constructService .kernelObj,
    .constructService .chatService,
    .constructService .embeddingService,
    .kernelOp .addService,
    .kernelOp .addService,
    -- cell da74fa33: SimpleModel dataclass definition
    .defineSchema .simpleModel,
    -- cell d096504c: the three SimpleModel records
    .constructRecords .simpleModel,
    -- cell 5338d3ac: InMemoryStore(), get_collection, ensure_collection_exists, upsert
    .constructStore .inMemoryStore,
    .storeCall .in_memory_store .get_collection,
    .storeCall .collection .ensure_collection_exists,
    .storeCall .collection .upsert,
    -- cell 628c843e: search_memory_examples definition
    .defineFunction .searchMemoryExamples,
    -- cell 24764c48: search_memory_examples(collection, three questions)
    .printResults, .storeCall .collection .search, .printResults,
    .printResults, .storeCall .collection .search, .printResults,
    .printResults, .storeCall .collection .search, .printResults,
    -- cell 9c1fdace: collection.create_search_function then kernel.add_function
    .storeCall .collection .create_search_function,
    .kernelOp .addFunction,
    -- cell fb8549b2: setup_chat_with_memory definition
    .defineFunction .setupChatWithMemory,
    -- cell e3875a34: print, setup_chat_with_memory (kernel.add_function), prints, chat definition
    .printResults,
    .kernelOp .addFunction,
    .printResults,
    .defineFunction .chatFunc,
    -- cell 6b55f64f: chat("What is my budget for 2024?")
    .printResults, .chatCall, .printResults,
    -- cell 243f9eb2: chat("talk to me about my finances")
    .printResults, .chatCall, .printResults,
    -- cell 170e7142: GitHubFile dataclass definition
    .defineSchema .gitHubFile,
    -- cell 0d971eeb: three GitHubFile records, get_collection, ensure_collection_exists, upsert
    .constructRecords .gitHubFile,
    .storeCall .in_memory_store .get_collection,
    .storeCall .github_memory .ensure_collection_exists,
    .storeCall .github_memory .upsert,
    -- cell 143911c3: query banner, github_memory.search, three results printed
    .printResults,
    .storeCall .github_memory .search,
    .printResults, .printResults, .printResults,
    -- cell 77fdfa86: AzureAISearchCollection(), ensure_collection_deleted, ensure_collection_exists, upsert
    .constructStore .azureAISearchCollection,
    .storeCall .azs_memory .ensure_collection_deleted,
    .storeCall .azs_memory .ensure_collection_exists,
    .storeCall .azs_memory .upsert,
    -- cell 1a09d0ca: search_memory_examples(azs_memory, three questions)
    .printResults, .storeCall .azs_memory .search, .printResults,
    .printResults, .storeCall .azs_memory .search, .printResults,
    .printResults, .storeCall .azs_memory .search, .printResults,
    -- cell 82cd429e: cleanup, azs_memory.ensure_collection_deleted
    .storeCall .azs_memory .ensure_collection_deleted ]

/-- The store/collection operations invoked across the notebook, in call
order. -/
def storeQueryOps : List StoreOp :=
  notebookTrace.filterMap fun s =>
    match s with
    | .storeCall _ o => some o
    | _ => none

/-- Steps that call into the external SDK or external services and can
therefore raise: service and store construction (for example on missing
credentials), every store/collection method, and chat invocation. -/
def Step.canRaise : Step → Bool
  | .constructService _ => true
  | .constructStore _ => true
  | .storeCall _ _ => true
  | .chatCall => true
  | _ => false

/-- Whether a step is an `except` handler. -/
def Step.isHandler : Step → Bool
  | .handleErr => true
  | _ => false

/-- Python-style execution of a step list.  `oracle i` is the outcome of
the i-th step when that step calls an external service.  A raised
exception is carried as a pending error: while one is pending, remaining
steps are skipped unless a `handleErr` step catches it; a pending error
that is never caught is the run's result, unchanged. -/
def runSteps (oracle : Nat → Except String Unit) :
    Option String → Nat → List Step → Except String Unit
  | none, _, [] => .ok ()
  | some e, _, [] => .error e
  | some e, i, s :: rest =>
    if s.isHandler then runSteps oracle none (i + 1) rest
    else runSteps oracle (some e) (i + 1) rest
  | none, i, s :: rest =>
    if s.canRaise then
      match oracle i with
      | .ok _ => runSteps oracle none (i + 1) rest
      | .error e => runSteps oracle (some e) (i + 1) rest
    else runSteps oracle none (i + 1) rest

/-- The first error the oracle assigns to an external call of the step
list, scanning in order from index `i`. -/
def firstOracleError (oracle : Nat → Except String Unit) :
    Nat → List Step → Option String
  | _, [] => none
  | i, s :: rest =>
    if s.canRaise then
      match oracle i with
      | .ok _ => firstOracleError oracle (i + 1) rest
      | .error e => some e
    else firstOracleError oracle (i + 1) rest

/-- An awaited asynchronous external-service call: the store/collection
methods that the notebook awaits (`ensure_collection_exists`, `upsert`,
`search`, `ensure_collection_deleted`) and `kernel.invoke`.
`get_collection` and `create_search_function` are synchronous. -/
def Step.isAwaitedCall : Step → Bool
  | .storeCall _ .ensure_collection_exists => true
  | .storeCall _ .upsert => true
  | .storeCall _ .search => true
  | .storeCall _ .ensure_collection_deleted => true
  | .chatCall => true
  | _ => false

/-- Task spawning or gathering: concurrency coordination primitives. -/
def Step.isConcurrencyPrimitive : Step → Bool
  | .spawnTask => true
  | .gatherTasks => true
  | _ => false

/-- Number of external calls still in flight after a step, given `p` in
flight before it: spawning a task leaves one more in flight, gathering
awaits them all, and an awaited call completes before the step ends. -/
def pendingAfter (p : Nat) : Step → Nat
  | .spawnTask => p + 1
  | .gatherTasks => 0
  | _ => p

/-- Peak number of external calls in flight while a step runs: an awaited
call (or a spawn) adds one to whatever is already pending. -/
def peakDuring (p : Nat) (s : Step) : Nat :=
  if s.isAwaitedCall || s.isConcurrencyPrimitive then p + 1 else p

/-- The maximum number of external calls simultaneously in flight over a
step list, starting with `p` pending. -/
def maxInFlight : Nat → List Step → Nat
  | p, [] => p
  | p, s :: rest => max (peakDuring p s) (maxInFlight (pendingAfter p s) rest)

/-- Abstract state of one collection: whether it has been created, and the
records it stores. -/
structure CollectionState (α : Type) where
  created : Bool
  records : List α
deriving Repr

/-- The collection methods as operations on a collection, with the
arguments that matter for the stored records. -/
inductive CollOp (α : Type) where
  | ensureExists
  | ensureDeleted
  | upsert (records : List α)
  | search (query : String) (top : Nat)

/-- Effect of one collection operation on the collection state, `key`
giving a record's key field: `upsert` inserts or replaces by key,
`ensure_collection_deleted` drops the collection, and `search` reads
without writing. -/
def applyCollOp (key : α → String) (st : CollectionState α) : CollOp α → CollectionState α
  | .ensureExists => { st with created := true }
  | .ensureDeleted => ⟨false, []⟩
  | .upsert rs =>
    { st with
      records := rs.foldl (fun acc r => acc.filter (fun x => key x != key r) ++ [r]) st.records }
  | .search _ _ => st

/-- Effect of a sequence of collection operations. -/
def applyCollOps (key : α → String) (st : CollectionState α) (ops : List (CollOp α)) :
    CollectionState α :=
  ops.foldl (applyCollOp key) st

/-- The collection operations issued by `search_memory_examples`
(cell `628c843e`): for each question it prints the question, awaits
`collection.search(question, top=1)`, and prints each result's text and
score — one `search` call per question and nothing else. -/
def searchMemoryExamplesCollOps (α : Type) (questions : List String) : List (CollOp α) :=
  questions.map fun q => CollOp.search q 1

/-- Environment set-up and configuration loading (cells before any SDK
object is constructed). -/
def Step.isConfigStep : Step → Bool
  | .setupEnv => true
  | .loadConfig => true
  | _ => false

/-- Construction of an SDK service object (kernel, chat, embedding). -/
def Step.isServiceConstruction : Step → Bool
  | .constructService _ => true
  | _ => false

/-- A method call on a store or collection object. -/
def Step.isStoreCall : Step → Bool
  | .storeCall _ _ => true
  | _ => false

/-- Definition of one of the two record dataclasses. -/
def Step.isSchemaDef : Step → Bool
  | .defineSchema _ => true
  | _ => false

/-- A store call on one of the two collections holding `GitHubFile`
records (`github_memory` or `azs_memory`). -/
def Step.isGitHubStoreCall : Step → Bool
  | .storeCall .github_memory _ => true
  | .storeCall .azs_memory _ => true
  | _ => false

/-- With an uncaught exception pending and no handler anywhere in the
remaining steps, the run ends with exactly that exception. -/
theorem runSteps_pending_no_handler (oracle : Nat → Except String Unit) (e : String) :
    ∀ (t : List Step) (i : Nat), t.filter Step.isHandler = [] →
      runSteps oracle (some e) i t = .error e := by
  intro t
  induction t with
  | nil => intro i _; rfl
  | cons s rest ih =>
    intro i h
    rw [List.filter_cons] at h
    by_cases hs : s.isHandler = true
    · simp [hs] at h
    · simp only [hs, if_false] at h
      simp only [runSteps, hs, if_false]
      exact ih (i + 1) h

/-- In a step list containing no handler, execution from a clean state
returns `ok` when no external call fails, and otherwise returns the first
failing call's error unchanged. -/
theorem runSteps_no_handler (oracle : Nat → Except String Unit) :
    ∀ (t : List Step) (i : Nat), t.filter Step.isHandler = [] →
      runSteps oracle none i t =
        (match firstOracleError oracle i t with
          | none => Except.ok ()
          | some e => Except.error e) := by
  intro t
  induction t with
  | nil => intro i _; rfl
  | cons s rest ih =>
    intro i h
    rw [List.filter_cons] at h
    by_cases hs : s.isHandler = true
    · simp [hs] at h
    · simp only [hs, if_false] at h
      by_cases hc : s.canRaise = true
      · simp only [runSteps, firstOracleError, hc, if_true]
        cases ho : oracle i with
        | ok _ => exact ih (i + 1) h
        | error e => exact runSteps_pending_no_handler oracle e rest (i + 1) h
      · simp only [runSteps, firstOracleError, hc, if_false]
        exact ih (i + 1) h

/-- C1 counterexample: the claim says no code of this repository
determines the content passed to embedding generation, and in particular
that the record classes' `__post_init__` methods do not select or
construct the embedding-input text.  In fact `SimpleModel.__post_init__`
rewrites a `None` embedding to the record's own text: on the notebook's
first record it turns `None` into the budget sentence, so `__post_init__`
does not leave the embedding field unchanged. -/
theorem c1_counterexample :
    (SimpleModel.postInit
        ⟨"Your budget for 2024 is $100,000", "r1", none⟩).embedding
      = some (EmbeddingValue.text "Your budget for 2024 is $100,000")
    ∧ ¬ ∀ m : SimpleModel, (SimpleModel.postInit m).embedding = m.embedding := by
  refine ⟨rfl, fun h => ?_⟩
  have hx := h ⟨"x", "i", none⟩
  simp [SimpleModel.postInit] at hx

/-- C1 amended: embedding computation, similarity scoring and persistence
live in the external SDK, but the repository does determine the content
passed to embedding generation: for every record the notebook constructs
(all built with the embedding argument left at `None`), `__post_init__`
selects the embedding-input text — the `text` field for `SimpleModel`
records, and the `url` field, a space, and the `text` field for
`GitHubFile` records. -/
theorem c1_amended (i1 i2 i3 k1 k2 k3 : String) :
    (∀ r ∈ notebookSimpleRecords i1 i2 i3,
        r.embedding = some (EmbeddingValue.text r.text))
    ∧ (∀ r ∈ notebookGitHubFiles k1 k2 k3,
        r.embedding = some (EmbeddingValue.text (r.url ++ " " ++ r.text))) := by
  constructor
  · intro r hr
    simp only [notebookSimpleRecords, List.mem_cons, List.not_mem_nil, or_false] at hr
    rcases hr with rfl | rfl | rfl <;> rfl
  · intro r hr
    simp only [notebookGitHubFiles, List.mem_cons, List.not_mem_nil, or_false] at hr
    rcases hr with rfl | rfl | rfl <;> rfl

/-- C2 counterexample: the claim says the set of store/query APIs the
notebook calls on vector-store objects is exactly `upsert`, `search` and
`ensure_collection_exists`; but the notebook also calls
`ensure_collection_deleted` (twice, on `azs_memory`), which is outside
that set. -/
theorem c2_counterexample :
    StoreOp.ensure_collection_deleted ∈ storeQueryOps
    ∧ ¬ (StoreOp.ensure_collection_deleted = StoreOp.upsert
          ∨ StoreOp.ensure_collection_deleted = StoreOp.search
          ∨ StoreOp.ensure_collection_deleted = StoreOp.ensure_collection_exists) := by
  decide

/-- C2 amended: the set of SDK APIs the notebook calls on vector-store
objects is exactly `get_collection`, `ensure_collection_exists`,
`upsert`, `search`, `create_search_function` and
`ensure_collection_deleted`. -/
theorem c2_amended :
    ∀ op : StoreOp,
      op ∈ storeQueryOps ↔
        op ∈ [StoreOp.get_collection, StoreOp.ensure_collection_exists,
              StoreOp.upsert, StoreOp.search, StoreOp.create_search_function,
              StoreOp.ensure_collection_deleted] := by
  intro op
  cases op <;> decide

/-- C3: the service provider is selected solely by environment
configuration: with `GLOBAL_LLM_SERVICE` unset the selection is
`AzureOpenAI`; with it set, the selection is the `Service` enum member
whose value is the variable's lowercased string; and two runs over the
same environment select the same service. -/
theorem c3_selected_service :
    selectedService none = Except.ok Service.AzureOpenAI
    ∧ (∀ (s : String) (v : Service),
        Service.fromValue (pyLower s) = some v →
          selectedService (some s) = Except.ok v)
    ∧ (∀ env : Option String, selectedService env = selectedService env) := by
  refine ⟨rfl, ?_, fun _ => rfl⟩
  intro s v h
  simp [selectedService, h]

/-- Witness for C3 at a concrete environment. -/
theorem c3_selected_service_witness :
    Service.fromValue (pyLower "OpenAI") = some Service.OpenAI
    ∧ selectedService (some "OpenAI") = Except.ok Service.OpenAI :=
  ⟨rfl, c3_selected_service.2.1 "OpenAI" Service.OpenAI rfl⟩

/-- C4 counterexample: the claim says the flow's steps run in the order
configuration, services, schema, store/query, and finally printing of
results.  But the trace's final step is the cleanup call
`azs_memory.ensure_collection_deleted()`, not a print; and a print (the
selected-service banner) already occurs before the first SDK service
object is constructed. -/
theorem c4_counterexample :
    notebookTrace.getLast?
        = some (Step.storeCall StoreTarget.azs_memory StoreOp.ensure_collection_deleted)
    ∧ notebookTrace.getLast? ≠ some Step.printResults
    ∧ notebookTrace[3]? = some Step.printResults
    ∧ notebookTrace[4]? = some (Step.constructService ServiceObj.kernelObj) := by
  decide

/-- C4 amended: configuration loading comes first (all set-up and
configuration steps precede everything else), service construction is
finished before the first record schema is defined, each schema is defined
before any store/query call that uses its records (no store call at all
before `SimpleModel`; no call on `github_memory` or `azs_memory` before
`GitHubFile`), printing interleaves with the store/query calls, and the
final step of the flow is the cleanup call `ensure_collection_deleted`,
immediately preceded by the last printing of results. -/
theorem c4_amended :
    ((notebookTrace.dropWhile Step.isConfigStep).filter Step.isConfigStep = [])
    ∧ ((notebookTrace.dropWhile (fun s => !s.isSchemaDef)).filter
          Step.isServiceConstruction = [])
    ∧ ((notebookTrace.takeWhile
          (fun s => s != Step.defineSchema SchemaName.simpleModel)).filter
            Step.isStoreCall = [])
    ∧ ((notebookTrace.takeWhile
          (fun s => s != Step.defineSchema SchemaName.gitHubFile)).filter
            Step.isGitHubStoreCall = [])
    ∧ notebookTrace.getLast?
        = some (Step.storeCall StoreTarget.azs_memory StoreOp.ensure_collection_deleted)
    ∧ (notebookTrace.reverse.drop 1).head? = some Step.printResults := by
  decide

/-- C5: the notebook defines exactly two record shapes — `SimpleModel`
and `GitHubFile`, in that order — and each has exactly one key field, at
least one data field, and exactly one vector field. -/
theorem c5_record_shapes :
    (notebookTrace.filterMap (fun s =>
        match s with
        | .defineSchema n => some n
        | _ => none) = [SchemaName.simpleModel, SchemaName.gitHubFile])
    ∧ ∀ g : String,
        (roleCount (simpleModelVSFields g) .key = 1
          ∧ 1 ≤ roleCount (simpleModelVSFields g) .data
          ∧ roleCount (simpleModelVSFields g) .vector = 1)
        ∧ (roleCount (gitHubFileVSFields g) .key = 1
          ∧ 1 ≤ roleCount (gitHubFileVSFields g) .data
          ∧ roleCount (gitHubFileVSFields g) .vector = 1) := by
  refine ⟨by decide, fun g => ⟨⟨rfl, ?_, rfl⟩, ⟨rfl, ?_, rfl⟩⟩⟩
  · exact Nat.le_refl 1
  · exact Nat.le_succ 1

/-- C6: the notebook contains no exception handler, so an exception raised
by any external SDK call (service or store construction, any collection
method, chat invocation) propagates unchanged: whatever outcomes the
external calls have, the run returns `ok` if none fails and otherwise
returns exactly the first failing call's error. -/
theorem c6_error_propagation :
    notebookTrace.filter Step.isHandler = []
    ∧ ∀ oracle : Nat → Except String Unit,
        runSteps oracle none 0 notebookTrace =
          (match firstOracleError oracle 0 notebookTrace with
            | none => Except.ok ()
            | some e => Except.error e) :=
  ⟨by decide, fun oracle => runSteps_no_handler oracle notebookTrace 0 (by decide)⟩

set_option maxRecDepth 4000 in
/-- C7: the notebook's external calls are strictly sequential: the trace
contains no task spawning or gathering, and at no point is more than one
external call in flight. -/
theorem c7_sequential_calls :
    maxInFlight 0 notebookTrace ≤ 1
    ∧ notebookTrace.filter Step.isConcurrencyPrimitive = [] := by
  decide

/-- C8: constructing a `SimpleModel` with the embedding argument omitted
or `None` yields an embedding equal to the `text` field; constructing a
`GitHubFile` likewise yields the `url` field, a space, and the `text`
field; and for either class a non-`None` embedding argument is left
unchanged. -/
theorem c8_post_init_embedding (t i u k : String) (e : EmbeddingValue) :
    (mkSimpleModel t i none).embedding = some (EmbeddingValue.text t)
    ∧ (mkSimpleModel t i (some e)).embedding = some e
    ∧ (mkGitHubFile u t k none).embedding
        = some (EmbeddingValue.text (u ++ " " ++ t))
    ∧ (mkGitHubFile u t k (some e)).embedding = some e :=
  ⟨rfl, rfl, rfl, rfl⟩

/-- C9: when the provider selector resolves to `HuggingFace`, the
service-configuration cell executes neither of its branches — no service
is added to the kernel and the name `embedding_gen` stays unbound — and
both schema-definition cells, which reference `embedding_gen`, then fail
with `NameError`. -/
theorem c9_huggingface_name_error (env : Option String)
    (h : selectedService env = Except.ok Service.HuggingFace) :
    runConfigPhase env = Except.ok (⟨[]⟩, none)
    ∧ (configureServicesCell Service.HuggingFace).2 = none
    ∧ defineSimpleModelCell (configureServicesCell Service.HuggingFace).2
        = Except.error (PyError.nameError "embedding_gen")
    ∧ defineGitHubFileCell (configureServicesCell Service.HuggingFace).2
        = Except.error (PyError.nameError "embedding_gen") := by
  refine ⟨?_, rfl, rfl, rfl⟩
  simp [runConfigPhase, h, configureServicesCell]

/-- Witness for C9 at the concrete environment
`GLOBAL_LLM_SERVICE="huggingface"`. -/
theorem c9_huggingface_name_error_witness :
    selectedService (some "huggingface") = Except.ok Service.HuggingFace
    ∧ runConfigPhase (some "huggingface") = Except.ok (⟨[]⟩, none) :=
  ⟨rfl, (c9_huggingface_name_error (some "huggingface") rfl).1⟩

/-- C10: `search_memory_examples` is read-only on the collection it is
given: it issues one `search` call per question and nothing else, and
applying its operations to any collection state leaves the stored records
(indeed the whole state) unchanged. -/
theorem c10_search_read_only (α : Type) (key : α → String)
    (st : CollectionState α) (questions : List String) :
    applyCollOps key st (searchMemoryExamplesCollOps α questions) = st := by
  induction questions generalizing st with
  | nil => rfl
  | cons q qs ih => exact ih st
